import Mathlib

/-!
Verification of `wg-quic-differentiator` (src/wg-quic-differentiator/src/main.rs),
a UDP protocol-demultiplexing proxy.  We shallowly embed the packet classifier
`determine_packet_type`, the listener loop body of `main`, and the spawned
per-session relay task, and prove / refute the specification's claims about them.

Bytes are modelled as naturals (values 0..255; the classifier only compares
against small constants, so no modular arithmetic is needed).
-/

set_option autoImplicit false

namespace WgQuic

/-- Rust `enum PacketType \x7b Wireguard, Quic \x7d` from main.rs. -/
inductive PacketType where
  | Wireguard
  | Quic
deriving DecidableEq, Repr

/-- Source constant `WIREGUARD_SERVER_ADDR` ("localhost:51820"). -/
def WIREGUARD_SERVER_ADDR : String := "localhost:51820"

/-- Source constant `QUIC_SERVER_ADDR` ("localhost:8443"). -/
def QUIC_SERVER_ADDR : String := "localhost:8443"

/-- Source constant `CONNECTION_TIMEOUT_SECS` (30 seconds). -/
def CONNECTION_TIMEOUT_SECS : Nat := 30

/-- Source constant `BUFFER_SIZE` (65536 bytes). -/
def BUFFER_SIZE : Nat := 65536

/--
`fn determine_packet_type(buf: &[u8], _source_addr: &SocketAddr) -> PacketType`.

Direct translation of the classification condition
`buf.len() >= 4 && buf[0] <= 0x04 && buf[0] > 0 && buf[1] == 0x00 && buf[2] == 0x00 && buf[3] == 0x00`;
the `getD _ 0` reads stand for the (guarded) slice indexing — the default is
never reached, as `determine_packet_type_checked_eq` proves below.  The inner
`match buf[0]` in the source only chooses a log message and does not affect the
returned tag, so it is omitted here.  The `_source_addr` argument is unused in
the source and omitted.
-/
def determine_packet_type (buf : List Nat) : PacketType :=
  if 4 ≤ buf.length
      ∧ buf.getD 0 0 ≤ 0x04
      ∧ buf.getD 0 0 > 0
      ∧ buf.getD 1 0 = 0x00
      ∧ buf.getD 2 0 = 0x00
      ∧ buf.getD 3 0 = 0x00
  then PacketType.Wireguard
  else PacketType.Quic

/--
The same classifier with Rust's panicking slice indexing made explicit:
`buf[i]` is modelled by `buf[i]?`, and an out-of-bounds access (a panic)
yields `none`.  The `&&` chain short-circuits exactly as in the source:
`buf[i]` is only read after `buf.len() >= 4` (and the preceding byte tests)
have succeeded.
-/
def determine_packet_type_checked (buf : List Nat) : Option PacketType :=
  if 4 ≤ buf.length then
    match buf[0]? with
    | none => none
    | some b0 =>
      if b0 ≤ 0x04 ∧ b0 > 0 then
        match buf[1]? with
        | none => none
        | some b1 =>
          if b1 = 0x00 then
            match buf[2]? with
            | none => none
            | some b2 =>
              if b2 = 0x00 then
                match buf[3]? with
                | none => none
                | some b3 =>
                  if b3 = 0x00 then some PacketType.Wireguard
                  else some PacketType.Quic
              else some PacketType.Quic
          else some PacketType.Quic
      else some PacketType.Quic
  else some PacketType.Quic

theorem length_ge_four_shape {buf : List Nat} (h : 4 ≤ buf.length) :
    ∃ b0 b1 b2 b3 rest, buf = b0 :: b1 :: b2 :: b3 :: rest := by
  match buf with
  | [] => simp at h
  | [_] => simp at h
  | [_, _] => simp at h
  | [_, _, _] => simp at h
  | b0 :: b1 :: b2 :: b3 :: rest => exact ⟨b0, b1, b2, b3, rest, rfl⟩

theorem determine_packet_type_cons (b0 b1 b2 b3 : Nat) (rest : List Nat) :
    determine_packet_type (b0 :: b1 :: b2 :: b3 :: rest) =
      if b0 ≤ 4 ∧ 0 < b0 ∧ b1 = 0 ∧ b2 = 0 ∧ b3 = 0
      then PacketType.Wireguard else PacketType.Quic := by
  unfold determine_packet_type
  have hlen : 4 ≤ (b0 :: b1 :: b2 :: b3 :: rest).length := by
    simp [List.length]
  simp only [List.getD_cons_zero, List.getD_cons_succ]
  by_cases h0 : b0 ≤ 4 ∧ 0 < b0 ∧ b1 = 0 ∧ b2 = 0 ∧ b3 = 0
  · obtain ⟨ha, hb, hc, hd, he⟩ := h0
    rw [if_pos ⟨hlen, ha, hb, hc, hd, he⟩, if_pos ⟨ha, hb, hc, hd, he⟩]
  · rw [if_neg, if_neg h0]
    intro hcon
    exact h0 ⟨hcon.2.1, hcon.2.2.1, hcon.2.2.2.1, hcon.2.2.2.2.1, hcon.2.2.2.2.2⟩

/--
C9: the classifier `determine_packet_type` is total and panic-free: the version with
explicit bounds-checked indexing never reaches an out-of-bounds access on any
input (including buffers shorter than 4 bytes and the empty buffer), and always
returns exactly the tag the classifier computes.
-/
theorem classify_total_no_panic (buf : List Nat) :
    determine_packet_type_checked buf = some (determine_packet_type buf) := by
  by_cases hlen : 4 ≤ buf.length
  · obtain ⟨b0, b1, b2, b3, rest, rfl⟩ := length_ge_four_shape hlen
    rw [determine_packet_type_cons]
    unfold determine_packet_type_checked
    rw [if_pos hlen]
    simp only [List.getElem?_cons_zero, List.getElem?_cons_succ]
    by_cases h0 : b0 ≤ 4 ∧ 0 < b0
    · rw [if_pos h0]
      by_cases h1 : b1 = 0
      · rw [if_pos h1]
        by_cases h2 : b2 = 0
        · rw [if_pos h2]
          by_cases h3 : b3 = 0
          · rw [if_pos h3, if_pos ⟨h0.1, h0.2, h1, h2, h3⟩]
          · rw [if_neg h3, if_neg]
            intro hcon
            exact h3 hcon.2.2.2.2
        · rw [if_neg h2, if_neg]
          intro hcon
          exact h2 hcon.2.2.2.1
      · rw [if_neg h1, if_neg]
        intro hcon
        exact h1 hcon.2.2.1
    · rw [if_neg h0, if_neg]
      intro hcon
      exact h0 ⟨hcon.1, hcon.2.1⟩
  · unfold determine_packet_type determine_packet_type_checked
    rw [if_neg hlen, if_neg]
    intro hcon
    exact hlen hcon.1

/--
C4: classification rule — the result is `Wireguard` (ProtocolA) exactly when
the buffer has length at least 4, its first byte lies in the inclusive range
[1,4], and bytes 1..3 are zero; in every other case — in particular every
buffer of length < 4, and every buffer whose first byte is 0 or exceeds 4 —
the result is the fallback `Quic` (ProtocolB).
-/
theorem classify_rule (buf : List Nat) :
    (determine_packet_type buf = PacketType.Wireguard ↔
      ∃ b0 b1 b2 b3 rest, buf = b0 :: b1 :: b2 :: b3 :: rest ∧
        1 ≤ b0 ∧ b0 ≤ 4 ∧ b1 = 0 ∧ b2 = 0 ∧ b3 = 0) ∧
    (determine_packet_type buf = PacketType.Wireguard ∨
      determine_packet_type buf = PacketType.Quic) := by
  constructor
  · constructor
    · intro heq
      by_cases hlen : 4 ≤ buf.length
      · obtain ⟨b0, b1, b2, b3, rest, rfl⟩ := length_ge_four_shape hlen
        rw [determine_packet_type_cons] at heq
        by_cases hc : b0 ≤ 4 ∧ 0 < b0 ∧ b1 = 0 ∧ b2 = 0 ∧ b3 = 0
        · exact ⟨b0, b1, b2, b3, rest, rfl, hc.2.1, hc.1, hc.2.2.1, hc.2.2.2.1,
            hc.2.2.2.2⟩
        · rw [if_neg hc] at heq
          exact absurd heq (by simp)
      · unfold determine_packet_type at heq
        rw [if_neg (fun hcon => hlen hcon.1)] at heq
        exact absurd heq (by simp)
    · rintro ⟨b0, b1, b2, b3, rest, rfl, h1, h4, hz1, hz2, hz3⟩
      rw [determine_packet_type_cons, if_pos ⟨h4, h1, hz1, hz2, hz3⟩]
  · unfold determine_packet_type
    by_cases hc : 4 ≤ buf.length ∧ buf.getD 0 0 ≤ 4 ∧ buf.getD 0 0 > 0
        ∧ buf.getD 1 0 = 0 ∧ buf.getD 2 0 = 0 ∧ buf.getD 3 0 = 0
    · left; rw [if_pos hc]
    · right; rw [if_neg hc]

/--
C6: the tag depends only on the first four bytes: any two buffers of
length at least 4 that agree on their first four bytes classify identically —
neither the total length beyond 4 bytes nor any trailing byte content
influences the returned protocol tag.
-/
theorem classify_depends_only_on_first_four (b1 b2 : List Nat)
    (h1 : 4 ≤ b1.length) (h2 : 4 ≤ b2.length)
    (hpre : b1.take 4 = b2.take 4) :
    determine_packet_type b1 = determine_packet_type b2 := by
  obtain ⟨x0, x1, x2, x3, xr, rfl⟩ := length_ge_four_shape h1
  obtain ⟨y0, y1, y2, y3, yr, rfl⟩ := length_ge_four_shape h2
  simp only [List.take, List.cons.injEq] at hpre
  obtain ⟨e0, e1, e2, e3, -⟩ := hpre
  subst e0; subst e1; subst e2; subst e3
  rw [determine_packet_type_cons, determine_packet_type_cons]

/-- Witness for C6 at a concrete pair of buffers: `[1,0,0,0]` (length 4) and
`[1,0,0,0,0x99,0x99]` (length 6) share their first four bytes and classify
identically. -/
theorem classify_depends_only_on_first_four_witness :
    (4 : Nat) ≤ [1, 0, 0, 0].length ∧
      (4 : Nat) ≤ [1, 0, 0, 0, 0x99, 0x99].length ∧
      determine_packet_type [1, 0, 0, 0] =
        determine_packet_type [1, 0, 0, 0, 0x99, 0x99] :=
  ⟨by decide, by decide,
    classify_depends_only_on_first_four [1, 0, 0, 0] [1, 0, 0, 0, 0x99, 0x99]
      (by decide) (by decide) (by decide)⟩

/-! ## Registry and listener loop

The listener (`main`'s `loop`) owns `connections: ConnectionMap`, a
`HashMap<(SocketAddr, PacketType), mpsc::Sender<Vec<u8>>>` behind a mutex.
We model a client endpoint abstractly, identify each forwarding session (its
channel sender, task and backend socket) by a numeric identity drawn from a
fresh-id counter, and model the hash map as an association list whose
operations (`mapLookup`, `mapInsert`, `mapRemove`) have exactly the
`HashMap` semantics: lookup of the unique binding, insert-or-replace, and
removal of the key's binding.
-/

/-- A client transport endpoint (IP + port), compared by value. -/
structure SocketAddr where
  ip : Nat
  port : Nat
deriving DecidableEq, Repr

/-- Identity of one forwarding session (one backend socket + relay task). -/
abbrev SessionId := Nat

/-- The composite key of `ConnectionMap`: `(SocketAddr, PacketType)`. -/
abbrev SessionKey := SocketAddr × PacketType

/-- The `ConnectionMap` contents, as an association list with unique keys. -/
abbrev ConnectionMap := List (SessionKey × SessionId)

def mapLookup (m : ConnectionMap) (k : SessionKey) : Option SessionId :=
  (m.find? (fun e => decide (e.1 = k))).map Prod.snd

def mapRemove (m : ConnectionMap) (k : SessionKey) : ConnectionMap :=
  m.filter (fun e => ! decide (e.1 = k))

def mapInsert (m : ConnectionMap) (k : SessionKey) (v : SessionId) : ConnectionMap :=
  (k, v) :: mapRemove m k

theorem mapLookup_cons_eq (e : SessionKey × SessionId) (rest : ConnectionMap)
    (k : SessionKey) (he : e.1 = k) : mapLookup (e :: rest) k = some e.2 := by
  rw [mapLookup, List.find?_cons_of_pos _ (by simp [he])]
  rfl

theorem mapLookup_cons_ne (e : SessionKey × SessionId) (rest : ConnectionMap)
    (k : SessionKey) (he : ¬ e.1 = k) :
    mapLookup (e :: rest) k = mapLookup rest k := by
  rw [mapLookup, List.find?_cons_of_neg _ (by simp [he])]
  rfl

theorem mapRemove_cons_eq (e : SessionKey × SessionId) (rest : ConnectionMap)
    (k : SessionKey) (he : e.1 = k) : mapRemove (e :: rest) k = mapRemove rest k := by
  simp [mapRemove, List.filter_cons, he]

theorem mapRemove_cons_ne (e : SessionKey × SessionId) (rest : ConnectionMap)
    (k : SessionKey) (he : ¬ e.1 = k) :
    mapRemove (e :: rest) k = e :: mapRemove rest k := by
  simp [mapRemove, List.filter_cons, he]

theorem mapLookup_insert_self (m : ConnectionMap) (k : SessionKey) (v : SessionId) :
    mapLookup (mapInsert m k v) k = some v := by
  rw [mapInsert, mapLookup_cons_eq _ _ _ rfl]

theorem mapLookup_remove_self (m : ConnectionMap) (k : SessionKey) :
    mapLookup (mapRemove m k) k = none := by
  induction m with
  | nil => rfl
  | cons e rest ih =>
    by_cases he : e.1 = k
    · rw [mapRemove_cons_eq e rest k he]
      exact ih
    · rw [mapRemove_cons_ne e rest k he, mapLookup_cons_ne e _ k he]
      exact ih

theorem mapLookup_remove_ne (m : ConnectionMap) (k k' : SessionKey) (hne : k' ≠ k) :
    mapLookup (mapRemove m k) k' = mapLookup m k' := by
  induction m with
  | nil => rfl
  | cons e rest ih =>
    by_cases he : e.1 = k
    · have hne' : ¬ e.1 = k' := fun hcon => hne (hcon.symm.trans he)
      rw [mapRemove_cons_eq e rest k he, ih, mapLookup_cons_ne e rest k' hne']
    · rw [mapRemove_cons_ne e rest k he]
      by_cases he' : e.1 = k'
      · rw [mapLookup_cons_eq _ _ _ he', mapLookup_cons_eq _ _ _ he']
      · rw [mapLookup_cons_ne _ _ _ he', mapLookup_cons_ne _ _ _ he', ih]

theorem mapLookup_insert_ne (m : ConnectionMap) (k k' : SessionKey) (v : SessionId)
    (hne : k' ≠ k) : mapLookup (mapInsert m k v) k' = mapLookup m k' := by
  have hk : ¬ ((k, v) : SessionKey × SessionId).1 = k' := fun hcon => hne hcon.symm
  rw [mapInsert, mapLookup_cons_ne _ _ _ hk, mapLookup_remove_ne m k k' hne]

theorem mapRemove_keys_nodup (m : ConnectionMap) (k : SessionKey)
    (h : (m.map Prod.fst).Nodup) : ((mapRemove m k).map Prod.fst).Nodup := by
  induction m with
  | nil => exact h
  | cons e rest ih =>
    simp only [List.map_cons, List.nodup_cons] at h
    by_cases he : e.1 = k
    · rw [mapRemove_cons_eq e rest k he]
      exact ih h.2
    · rw [mapRemove_cons_ne e rest k he]
      simp only [List.map_cons, List.nodup_cons]
      refine ⟨fun hmem => h.1 ?_, ih h.2⟩
      obtain ⟨p, hp, hfst⟩ := List.mem_map.mp hmem
      exact List.mem_map.mpr ⟨p, List.mem_of_mem_filter hp, hfst⟩

theorem mapInsert_keys_nodup (m : ConnectionMap) (k : SessionKey) (v : SessionId)
    (h : (m.map Prod.fst).Nodup) : ((mapInsert m k v).map Prod.fst).Nodup := by
  simp only [mapInsert, List.map_cons, List.nodup_cons]
  refine ⟨fun hmem => ?_, mapRemove_keys_nodup m k h⟩
  obtain ⟨p, hp, hfst⟩ := List.mem_map.mp hmem
  have hpk := List.of_mem_filter hp
  simp only [Bool.not_eq_true', decide_eq_false_iff_not] at hpk
  exact hpk hfst

/-- The result of one `client_sock.recv_from` call. An `io::Error` is abstract. -/
abbrev IOErrorCode := Nat

/-- Translation of the listener loop's match on `packet_type` choosing
`WIREGUARD_SERVER_ADDR` or `QUIC_SERVER_ADDR`: the forward address is a
function of the tag alone. -/
def forward_address_for : PacketType → String
  | PacketType.Wireguard => WIREGUARD_SERVER_ADDR
  | PacketType.Quic => QUIC_SERVER_ADDR

/-- Outcomes of the socket operations performed while creating a new session
(`UdpSocket::bind("0.0.0.0:0")`, `connect(forward_address)`, first `send`),
supplied by the environment. -/
structure CreateEnv where
  bindResult : Except IOErrorCode Unit
  connectResult : Except IOErrorCode Unit
  firstSendResult : Except IOErrorCode Unit
deriving Repr

/-- The environment of one listener-loop iteration: the `recv_from` outcome,
whether the looked-up session's channel is still open (its receiver not yet
dropped), and the socket outcomes for a potential session creation. -/
structure StepEnv where
  recv : Except IOErrorCode (SocketAddr × List Nat)
  channelOpen : Bool
  create : CreateEnv
deriving Repr

/-- Listener state: the shared connection map plus a fresh-identity counter
standing for allocation of a new channel, socket and task. -/
structure ListenerState where
  connections : ConnectionMap
  nextSession : SessionId
deriving DecidableEq, Repr

/-- Observable effects of one listener-loop iteration. -/
inductive ListenerAction where
  /-- The datagram was pushed through the existing session's channel. -/
  | forwardedToExisting (sid : SessionId) (data : List Nat)
  /-- Send on the stale channel (`sender.send`) failed because the receiver
  was dropped: the datagram was dropped and the stale mapping removed. -/
  | droppedStale (key : SessionKey)
  /-- A new session was created, registered, and the datagram sent to
  `backend` as its first packet. -/
  | createdSession (key : SessionKey) (sid : SessionId) (backend : String)
      (firstPacket : List Nat)
deriving DecidableEq, Repr

/--
One iteration of the listener `loop` in `main`, translated from the source:

* `let (len, addr) = client_sock.recv_from(&mut buf).await?;` — a receive
  error propagates out of `main` (modelled by `Except.error`, which terminates
  the loop and the process);
* classify, choose `forward_address` by tag;
* look up `connections[(addr, packet_type)]`; if present, `sender.send(...)`:
  on failure (channel closed) log and `remove` the stale entry;
* otherwise insert a fresh sender, then `bind`/`connect`/first `send`, each
  followed by `?` — any failure propagates out of `main`.
-/
def listenerStep (env : StepEnv) (s : ListenerState) :
    Except IOErrorCode (ListenerState × List ListenerAction) :=
  match env.recv with
  | Except.error e => Except.error e
  | Except.ok (addr, packet_data) =>
    let packet_type := determine_packet_type packet_data
    let forward_address := forward_address_for packet_type
    match mapLookup s.connections (addr, packet_type) with
    | some sid =>
      if env.channelOpen then
        Except.ok (s, [ListenerAction.forwardedToExisting sid packet_data])
      else
        Except.ok
          ({ s with connections := mapRemove s.connections (addr, packet_type) },
           [ListenerAction.droppedStale (addr, packet_type)])
    | none =>
      let sid := s.nextSession
      let conns := mapInsert s.connections (addr, packet_type) sid
      match env.create.bindResult with
      | Except.error e => Except.error e
      | Except.ok _ =>
        match env.create.connectResult with
        | Except.error e => Except.error e
        | Except.ok _ =>
          match env.create.firstSendResult with
          | Except.error e => Except.error e
          | Except.ok _ =>
            Except.ok
              ({ connections := conns, nextSession := sid + 1 },
               [ListenerAction.createdSession (addr, packet_type) sid
                  forward_address packet_data])

/-- Whether a loop-iteration result is a propagated error (which aborts
`main` and the process). -/
def isFatal (r : Except IOErrorCode (ListenerState × List ListenerAction)) : Bool :=
  match r with
  | Except.error _ => true
  | Except.ok _ => false

/-- The state when `main` enters its loop: empty map, no sessions yet. -/
def initialState : ListenerState := { connections := [], nextSession := 0 }

/-! ## The spawned per-session relay task

`tokio::spawn(async move { loop { tokio::select! { ... } } ... })` in `main`:
each loop iteration races backend receive, the listener-fed channel, and the
idle timer (the `sleep` future is recreated each iteration, so the timer only
fires after `CONNECTION_TIMEOUT_SECS` with no intervening event).  We model
one iteration as a step on the event the race selected, together with the
outcomes of the socket calls made inside that arm.
-/

/-- The event one `tokio::select!` iteration of the relay task acts on. -/
inductive SessionEvent where
  /-- Backend receive (`forward_sock.recv`) completed with `result`; if it succeeded,
  `client_sock_clone.send_to(.., addr)` was attempted with outcome
  `sendBack`. -/
  | backendRecv (result : Except IOErrorCode (List Nat))
      (sendBack : Except IOErrorCode Unit)
  /-- Channel receive (`rx.recv()`) yielded a packet; `forward_sock.send` was
  attempted with outcome `forwardResult`. -/
  | clientPacket (data : List Nat) (forwardResult : Except IOErrorCode Unit)
  /-- Channel receive (`rx.recv()`) yielded nothing (sender dropped): the select pattern
  does not match, the branch is disabled, and the loop keeps waiting. -/
  | channelClosed
  /-- The `tokio::time::sleep(CONNECTION_TIMEOUT_SECS)` arm fired. -/
  | timeout
deriving Repr

/-- Datagrams the relay task actually put on the wire. -/
inductive SessionAction where
  | sentToClient (data : List Nat) (dest : SocketAddr)
  | sentToBackend (data : List Nat) (backend : String)
deriving DecidableEq, Repr

/-- Whether the loop iteration ended in `break` or fell through to the next
iteration. -/
inductive LoopControl where
  | next
  | brk
deriving DecidableEq, Repr

/--
One iteration of the relay task's `loop`, translated arm by arm from the
`tokio::select!` in `main`:
* backend recv ok → `send_to` the bytes to the client; on send error `break`;
* backend recv error → `break`;
* channel packet → `forward_sock.send`; on error `break`;
* channel closed → branch disabled, keep looping;
* idle timer fired → `break`.
-/
def sessionStep (addr : SocketAddr) (forward_address : String) :
    SessionEvent → LoopControl × List SessionAction
  | SessionEvent.backendRecv (Except.ok response) (Except.ok _) =>
      (LoopControl.next, [SessionAction.sentToClient response addr])
  | SessionEvent.backendRecv (Except.ok _) (Except.error _) =>
      (LoopControl.brk, [])
  | SessionEvent.backendRecv (Except.error _) _ =>
      (LoopControl.brk, [])
  | SessionEvent.clientPacket packet (Except.ok _) =>
      (LoopControl.next, [SessionAction.sentToBackend packet forward_address])
  | SessionEvent.clientPacket _ (Except.error _) =>
      (LoopControl.brk, [])
  | SessionEvent.channelClosed =>
      (LoopControl.next, [])
  | SessionEvent.timeout =>
      (LoopControl.brk, [])

/-- The relay `loop` over a (finite prefix of a) schedule of selected events:
returns whether the loop has exited via `break`, and the emitted datagrams. -/
def sessionLoop (addr : SocketAddr) (forward_address : String) :
    List SessionEvent → Bool × List SessionAction
  | [] => (false, [])
  | e :: rest =>
    match sessionStep addr forward_address e with
    | (LoopControl.brk, acts) => (true, acts)
    | (LoopControl.next, acts) =>
      let r := sessionLoop addr forward_address rest
      (r.1, acts ++ r.2)

/--
The whole spawned task: run the relay loop; when (and only when) the loop has
exited, execute the single statement after it,
`connections_clone.lock().await.remove(&(addr, packet_type));`.
Returns the resulting connection map, the number of registry removals the
task performed, and the emitted datagrams.
-/
def sessionTask (addr : SocketAddr) (forward_address : String) (key : SessionKey)
    (events : List SessionEvent) (conns : ConnectionMap) :
    ConnectionMap × Nat × List SessionAction :=
  let r := sessionLoop addr forward_address events
  if r.1 then (mapRemove conns key, 1, r.2) else (conns, 0, r.2)

/-- The events that make the relay loop `break`: any socket error in either
direction, or the idle timer firing. -/
def isTerminating : SessionEvent → Bool
  | SessionEvent.backendRecv (Except.error _) _ => true
  | SessionEvent.backendRecv (Except.ok _) (Except.error _) => true
  | SessionEvent.clientPacket _ (Except.error _) => true
  | SessionEvent.timeout => true
  | SessionEvent.backendRecv (Except.ok _) (Except.ok _) => false
  | SessionEvent.clientPacket _ (Except.ok _) => false
  | SessionEvent.channelClosed => false

theorem sessionStep_breaks_iff (addr : SocketAddr) (fwd : String) (e : SessionEvent) :
    (sessionStep addr fwd e).1 = LoopControl.brk ↔ isTerminating e = true := by
  cases e with
  | backendRecv r sb => cases r <;> cases sb <;> simp [sessionStep, isTerminating]
  | clientPacket d f => cases f <;> simp [sessionStep, isTerminating]
  | channelClosed => simp [sessionStep, isTerminating]
  | timeout => simp [sessionStep, isTerminating]

theorem sessionLoop_cons (addr : SocketAddr) (fwd : String) (e : SessionEvent)
    (rest : List SessionEvent) :
    sessionLoop addr fwd (e :: rest) =
      match sessionStep addr fwd e with
      | (LoopControl.brk, acts) => (true, acts)
      | (LoopControl.next, acts) =>
        ((sessionLoop addr fwd rest).1, acts ++ (sessionLoop addr fwd rest).2) := rfl

theorem sessionLoop_exits (addr : SocketAddr) (fwd : String)
    (events : List SessionEvent) (h : events.any isTerminating = true) :
    (sessionLoop addr fwd events).1 = true := by
  induction events with
  | nil => simp at h
  | cons e rest ih =>
    rw [List.any_cons, Bool.or_eq_true] at h
    rw [sessionLoop_cons]
    rcases hs : sessionStep addr fwd e with ⟨c, acts⟩
    cases c with
    | brk => rfl
    | next =>
      rcases h with he | hrest
      · have := (sessionStep_breaks_iff addr fwd e).mpr he
        rw [hs] at this
        exact absurd this (by simp)
      · exact ih hrest

theorem sessionTask_terminating (addr : SocketAddr) (fwd : String) (key : SessionKey)
    (events : List SessionEvent) (conns : ConnectionMap)
    (h : events.any isTerminating = true) :
    (sessionTask addr fwd key events conns).1 = mapRemove conns key ∧
      (sessionTask addr fwd key events conns).2.1 = 1 := by
  simp only [sessionTask]
  rw [sessionLoop_exits addr fwd events h]
  exact ⟨rfl, rfl⟩

theorem mapRemove_idem (m : ConnectionMap) (k : SessionKey) :
    mapRemove (mapRemove m k) k = mapRemove m k := by
  induction m with
  | nil => rfl
  | cons e rest ih =>
    by_cases he : e.1 = k
    · rw [mapRemove_cons_eq e rest k he]
      exact ih
    · rw [mapRemove_cons_ne e rest k he, mapRemove_cons_ne e _ k he, ih]

/-! ## Listener-step branch lemmas -/

theorem listenerStep_recv_error (env : StepEnv) (s : ListenerState) (e : IOErrorCode)
    (h : env.recv = Except.error e) : listenerStep env s = Except.error e := by
  unfold listenerStep
  rw [h]

theorem listenerStep_existing_open (env : StepEnv) (s : ListenerState)
    (addr : SocketAddr) (data : List Nat) (sid : SessionId)
    (hrecv : env.recv = Except.ok (addr, data))
    (hfound : mapLookup s.connections (addr, determine_packet_type data) = some sid)
    (hopen : env.channelOpen = true) :
    listenerStep env s =
      Except.ok (s, [ListenerAction.forwardedToExisting sid data]) := by
  unfold listenerStep
  rw [hrecv]
  simp only [hfound, hopen, if_true]

theorem listenerStep_stale (env : StepEnv) (s : ListenerState)
    (addr : SocketAddr) (data : List Nat) (sid : SessionId)
    (hrecv : env.recv = Except.ok (addr, data))
    (hfound : mapLookup s.connections (addr, determine_packet_type data) = some sid)
    (hclosed : env.channelOpen = false) :
    listenerStep env s = Except.ok
      ({ s with connections := mapRemove s.connections (addr, determine_packet_type data) },
       [ListenerAction.droppedStale (addr, determine_packet_type data)]) := by
  unfold listenerStep
  rw [hrecv]
  simp only [hfound, hclosed, Bool.false_eq_true, if_false]

theorem listenerStep_create (env : StepEnv) (s : ListenerState)
    (addr : SocketAddr) (data : List Nat)
    (hrecv : env.recv = Except.ok (addr, data))
    (hmiss : mapLookup s.connections (addr, determine_packet_type data) = none)
    (hcreate : env.create = ⟨Except.ok (), Except.ok (), Except.ok ()⟩) :
    listenerStep env s = Except.ok
      ({ connections := mapInsert s.connections (addr, determine_packet_type data) s.nextSession,
         nextSession := s.nextSession + 1 },
       [ListenerAction.createdSession (addr, determine_packet_type data) s.nextSession
          (forward_address_for (determine_packet_type data)) data]) := by
  unfold listenerStep
  rw [hrecv]
  simp only [hmiss, hcreate]

theorem listenerStep_create_fail (env : StepEnv) (s : ListenerState)
    (addr : SocketAddr) (data : List Nat) (e : IOErrorCode)
    (hrecv : env.recv = Except.ok (addr, data))
    (hmiss : mapLookup s.connections (addr, determine_packet_type data) = none)
    (hfail : env.create.bindResult = Except.error e
      ∨ (env.create.bindResult = Except.ok () ∧ env.create.connectResult = Except.error e)
      ∨ (env.create.bindResult = Except.ok () ∧ env.create.connectResult = Except.ok ()
          ∧ env.create.firstSendResult = Except.error e)) :
    listenerStep env s = Except.error e := by
  unfold listenerStep
  rw [hrecv]
  rcases hfail with hb | ⟨hb, hc⟩ | ⟨hb, hc, hf⟩
  · simp only [hmiss, hb]
  · simp only [hmiss, hb, hc]
  · simp only [hmiss, hb, hc, hf]

theorem listenerStep_ok_connections (env : StepEnv) (s s' : ListenerState)
    (acts : List ListenerAction)
    (h : listenerStep env s = Except.ok (s', acts)) :
    s'.connections = s.connections ∨
    (∃ k, s'.connections = mapRemove s.connections k) ∨
    (∃ k v, s'.connections = mapInsert s.connections k v) := by
  obtain ⟨recv, chOpen, b, c, f⟩ := env
  cases recv with
  | error e => simp [listenerStep] at h
  | ok p =>
    obtain ⟨addr, data⟩ := p
    rcases hl : mapLookup s.connections (addr, determine_packet_type data) with _ | sid
    · cases b with
      | error e => simp [listenerStep, hl] at h
      | ok u =>
        cases c with
        | error e => simp [listenerStep, hl] at h
        | ok u2 =>
          cases f with
          | error e => simp [listenerStep, hl] at h
          | ok u3 =>
            simp only [listenerStep, hl] at h
            injection h with h1
            injection h1 with ha hb
            subst ha
            exact Or.inr (Or.inr ⟨(addr, determine_packet_type data), s.nextSession, rfl⟩)
    · cases chOpen with
      | false =>
        simp only [listenerStep, hl, Bool.false_eq_true, if_false] at h
        injection h with h1
        injection h1 with ha hb
        subst ha
        exact Or.inr (Or.inl ⟨(addr, determine_packet_type data), rfl⟩)
      | true =>
        simp only [listenerStep, hl, if_true] at h
        injection h with h1
        injection h1 with ha hb
        subst ha
        exact Or.inl rfl

theorem sessionTask_connections (addr : SocketAddr) (fwd : String) (key : SessionKey)
    (events : List SessionEvent) (conns : ConnectionMap) :
    (sessionTask addr fwd key events conns).1 = mapRemove conns key ∨
    (sessionTask addr fwd key events conns).1 = conns := by
  simp only [sessionTask]
  by_cases hb : (sessionLoop addr fwd events).1 = true
  · rw [hb]
    exact Or.inl rfl
  · rw [Bool.of_not_eq_true hb]
    exact Or.inr rfl

/-! ## Reachable registry states -/

/-- Listener states reachable from startup: the initial empty state, the
successor of any non-fatal listener iteration, and the state after any
session task's post-loop cleanup ran against the shared map. -/
inductive Reachable : ListenerState → Prop where
  | init : Reachable initialState
  | step (env : StepEnv) (s s' : ListenerState) (acts : List ListenerAction) :
      Reachable s → listenerStep env s = Except.ok (s', acts) → Reachable s'
  | sessionCleanup (s : ListenerState) (addr : SocketAddr) (fwd : String)
      (key : SessionKey) (events : List SessionEvent) :
      Reachable s →
      Reachable { s with
        connections := (sessionTask addr fwd key events s.connections).1 }

theorem reachable_keys_nodup (s : ListenerState) (h : Reachable s) :
    (s.connections.map Prod.fst).Nodup := by
  induction h with
  | init => simp [initialState]
  | step env t t' acts hr hstep ih =>
    rcases listenerStep_ok_connections env t t' acts hstep with hc | ⟨k, hc⟩ | ⟨k, v, hc⟩
    · rw [hc]; exact ih
    · rw [hc]; exact mapRemove_keys_nodup _ _ ih
    · rw [hc]; exact mapInsert_keys_nodup _ _ _ ih
  | sessionCleanup t addr fwd key events hr ih =>
    rcases sessionTask_connections addr fwd key events t.connections with hc | hc
    · simpa [hc] using mapRemove_keys_nodup _ _ ih
    · simpa [hc] using ih

/-! ## Concrete fixtures used by witnesses and counterexamples -/

/-- The client endpoint 1.2.3.4:5000 of the specification's scenario. -/
def addr0 : SocketAddr := { ip := 0x01020304, port := 5000 }

def key0 : SessionKey := (addr0, PacketType.Wireguard)

/-- A registry in which `key0` is mapped to session identity 2. -/
def demoMap : ConnectionMap := [(key0, 2)]

def createOk : CreateEnv :=
  { bindResult := Except.ok (), connectResult := Except.ok (),
    firstSendResult := Except.ok () }

/-- An iteration whose `recv_from` fails with error code 7. -/
def cEnvRecvErr : StepEnv :=
  { recv := Except.error 7, channelOpen := true, create := createOk }

/-- An iteration that receives a fresh ProtocolA datagram but whose backend
socket bind fails with error code 13. -/
def cEnvBindErr : StepEnv :=
  { recv := Except.ok (addr0, [1, 0, 0, 0]), channelOpen := true,
    create := { bindResult := Except.error 13, connectResult := Except.ok (),
                firstSendResult := Except.ok () } }

/-- An iteration receiving a WireGuard-classified datagram from `addr0`. -/
def cEnvA : StepEnv :=
  { recv := Except.ok (addr0, [1, 0, 0, 0]), channelOpen := true, create := createOk }

/-- An iteration receiving a QUIC-classified datagram from `addr0`. -/
def cEnvB : StepEnv :=
  { recv := Except.ok (addr0, [0x99, 0, 0, 0]), channelOpen := true, create := createOk }

/-- An iteration receiving a ProtocolA datagram for a key whose session's
channel has already been closed. -/
def cEnvStale : StepEnv :=
  { recv := Except.ok (addr0, [1, 0, 0, 0]), channelOpen := false, create := createOk }

/-- A registry state holding a stale entry (session identity 5) for `key0`. -/
def staleState : ListenerState := { connections := [(key0, 5)], nextSession := 6 }

/-! ## Claims -/

/--
C1 (corrected): the source does `client_sock.recv_from(&mut buf).await?` —
the `?` propagates every receive error on the client-facing socket out of
`main`, terminating the listener loop and the process.  The claim that a
receive error is logged and the loop continues is refuted by
`recv_error_fatal_cex`; this is the amended statement: every receive error
aborts the listener.
-/
theorem recv_error_aborts_listener (env : StepEnv) (s : ListenerState)
    (e : IOErrorCode) (h : env.recv = Except.error e) :
    listenerStep env s = Except.error e ∧
      isFatal (listenerStep env s) = true := by
  have hs := listenerStep_recv_error env s e h
  exact ⟨hs, by rw [hs]; rfl⟩

/-- Witness for C1's amended theorem at the concrete environment
`cEnvRecvErr` (receive error 7) in the initial state. -/
theorem recv_error_aborts_listener_witness :
    cEnvRecvErr.recv = Except.error 7 ∧
      (listenerStep cEnvRecvErr initialState = Except.error 7 ∧
        isFatal (listenerStep cEnvRecvErr initialState) = true) :=
  ⟨rfl, recv_error_aborts_listener cEnvRecvErr initialState 7 rfl⟩

/--
Counterexample to C1 as stated: the iteration whose receive fails with error
code 7 is fatal — the listener loop does not continue.
-/
theorem recv_error_fatal_cex :
    isFatal (listenerStep cEnvRecvErr initialState) = true := rfl

/--
C2 (corrected): in the source, session creation runs inside the listener
loop and each of `UdpSocket::bind("0.0.0.0:0").await?`,
`connect(&forward_address).await?` and the first `send(packet_data).await?`
ends in `?`: a failure of any of them propagates out of `main` and terminates
the whole process — it is not contained to the one session.  The claim as
stated is refuted by `create_failure_fatal_cex`; this is the amended
statement: any bind/connect/first-send failure during session creation aborts
the listener loop (and with it every session).
-/
theorem create_failure_aborts_process (env : StepEnv) (s : ListenerState)
    (addr : SocketAddr) (data : List Nat) (e : IOErrorCode)
    (hrecv : env.recv = Except.ok (addr, data))
    (hmiss : mapLookup s.connections (addr, determine_packet_type data) = none)
    (hfail : env.create.bindResult = Except.error e
      ∨ (env.create.bindResult = Except.ok () ∧ env.create.connectResult = Except.error e)
      ∨ (env.create.bindResult = Except.ok () ∧ env.create.connectResult = Except.ok ()
          ∧ env.create.firstSendResult = Except.error e)) :
    listenerStep env s = Except.error e ∧
      isFatal (listenerStep env s) = true := by
  have hs := listenerStep_create_fail env s addr data e hrecv hmiss hfail
  exact ⟨hs, by rw [hs]; rfl⟩

/-- Witness for C2's amended theorem: a backend bind failure (error 13) while
creating the session for a fresh ProtocolA datagram aborts the process. -/
theorem create_failure_aborts_process_witness :
    cEnvBindErr.recv = Except.ok (addr0, [1, 0, 0, 0]) ∧
      cEnvBindErr.create.bindResult = Except.error 13 ∧
      (listenerStep cEnvBindErr initialState = Except.error 13 ∧
        isFatal (listenerStep cEnvBindErr initialState) = true) :=
  ⟨rfl, rfl,
    create_failure_aborts_process cEnvBindErr initialState addr0 [1, 0, 0, 0] 13
      rfl rfl (Or.inl rfl)⟩

/--
Counterexample to C2 as stated: with the registry empty, a datagram that
triggers session creation whose backend bind fails makes the whole listener
iteration fatal instead of terminating only that session.
-/
theorem create_failure_fatal_cex :
    isFatal (listenerStep cEnvBindErr initialState) = true := rfl

/--
Modelled from the spec (for comparison only): the registry removal the
specification describes, `remove(key, sessionIdentity)` — remove the mapping
only if the stored session's identity matches the caller's.
-/
def removeIfIdentityMatches (m : ConnectionMap) (k : SessionKey)
    (sid : SessionId) : ConnectionMap :=
  if mapLookup m k = some sid then mapRemove m k else m

/--
C3 (corrected): the cleanup a terminating session performs is
`connections_clone.lock().await.remove(&(addr, packet_type))` — a plain
key-based `HashMap::remove`.  It is idempotent, but it is not identity-guarded:
it removes whatever mapping currently exists for the key, even one that
refers to a different session recreated under the same key
(`cleanup_ignores_identity_cex`).  Amended statement: a terminating session's
cleanup unconditionally removes the key's current mapping, and the removal is
idempotent.
-/
theorem cleanup_removes_unconditionally (addr : SocketAddr) (fwd : String)
    (key : SessionKey) (events : List SessionEvent) (conns : ConnectionMap)
    (h : events.any isTerminating = true) :
    (sessionTask addr fwd key events conns).1 = mapRemove conns key ∧
      mapRemove (mapRemove conns key) key = mapRemove conns key ∧
      mapLookup (mapRemove conns key) key = none :=
  ⟨(sessionTask_terminating addr fwd key events conns h).1,
    mapRemove_idem conns key, mapLookup_remove_self conns key⟩

/-- Witness for C3's amended theorem: a session for `key0` (identity
irrelevant) that times out removes the stored mapping `key0 ↦ 2`. -/
theorem cleanup_removes_unconditionally_witness :
    ([SessionEvent.timeout].any isTerminating = true) ∧
      ((sessionTask addr0 WIREGUARD_SERVER_ADDR key0 [SessionEvent.timeout]
          demoMap).1 = mapRemove demoMap key0 ∧
        mapRemove (mapRemove demoMap key0) key0 = mapRemove demoMap key0 ∧
        mapLookup (mapRemove demoMap key0) key0 = none) :=
  ⟨rfl, cleanup_removes_unconditionally addr0 WIREGUARD_SERVER_ADDR key0
    [SessionEvent.timeout] demoMap rfl⟩

/--
Counterexample to C3 as stated: the registry maps `key0` to session
identity 2; the cleanup run by a terminating session whose own identity is 1
nevertheless deletes the mapping (result `[]`), while the removal the
specification describes would have left the registry unchanged.
-/
theorem cleanup_ignores_identity_cex :
    (sessionTask addr0 WIREGUARD_SERVER_ADDR key0 [SessionEvent.timeout]
        demoMap).1 = [] ∧
      removeIfIdentityMatches demoMap key0 1 = demoMap ∧
      demoMap ≠ [] := by
  refine ⟨rfl, rfl, ?_⟩
  decide

/--
C5: sessions are keyed by the composite `(SocketAddr, PacketType)`; every
reachable registry state has at most one session per composite key (its key
list is duplicate-free), and one client endpoint sending a ProtocolA-classified
datagram and then a ProtocolB-classified one is served by two distinct
sessions, created against the two different backends, the second creation
leaving the first session's mapping untouched.
-/
theorem composite_key_two_sessions (s : ListenerState) (hreach : Reachable s)
    (envA envB : StepEnv) (addr : SocketAddr) (dA dB : List Nat)
    (hA : envA.recv = Except.ok (addr, dA))
    (htA : determine_packet_type dA = PacketType.Wireguard)
    (hB : envB.recv = Except.ok (addr, dB))
    (htB : determine_packet_type dB = PacketType.Quic)
    (hmA : mapLookup s.connections (addr, PacketType.Wireguard) = none)
    (hmB : mapLookup s.connections (addr, PacketType.Quic) = none)
    (hcA : envA.create = createOk) (hcB : envB.create = createOk) :
    (s.connections.map Prod.fst).Nodup ∧
    listenerStep envA s = Except.ok
      ({ connections := mapInsert s.connections (addr, PacketType.Wireguard) s.nextSession,
         nextSession := s.nextSession + 1 },
       [ListenerAction.createdSession (addr, PacketType.Wireguard) s.nextSession
          WIREGUARD_SERVER_ADDR dA]) ∧
    listenerStep envB
        { connections := mapInsert s.connections (addr, PacketType.Wireguard) s.nextSession,
          nextSession := s.nextSession + 1 } = Except.ok
      ({ connections := mapInsert
            (mapInsert s.connections (addr, PacketType.Wireguard) s.nextSession)
            (addr, PacketType.Quic) (s.nextSession + 1),
         nextSession := s.nextSession + 1 + 1 },
       [ListenerAction.createdSession (addr, PacketType.Quic) (s.nextSession + 1)
          QUIC_SERVER_ADDR dB]) ∧
    mapLookup (mapInsert (mapInsert s.connections (addr, PacketType.Wireguard) s.nextSession)
        (addr, PacketType.Quic) (s.nextSession + 1)) (addr, PacketType.Wireguard)
      = some s.nextSession ∧
    mapLookup (mapInsert (mapInsert s.connections (addr, PacketType.Wireguard) s.nextSession)
        (addr, PacketType.Quic) (s.nextSession + 1)) (addr, PacketType.Quic)
      = some (s.nextSession + 1) ∧
    s.nextSession ≠ s.nextSession + 1 := by
  have hkne : ((addr, PacketType.Quic) : SessionKey) ≠ (addr, PacketType.Wireguard) := by
    simp
  have h1 := listenerStep_create envA s addr dA hA (by rw [htA]; exact hmA) hcA
  rw [htA] at h1
  simp only [forward_address_for] at h1
  have hmB' : mapLookup
      (mapInsert s.connections (addr, PacketType.Wireguard) s.nextSession)
      (addr, determine_packet_type dB) = none := by
    rw [htB, mapLookup_insert_ne _ _ _ _ hkne]
    exact hmB
  have h2 := listenerStep_create envB
    { connections := mapInsert s.connections (addr, PacketType.Wireguard) s.nextSession,
      nextSession := s.nextSession + 1 } addr dB hB hmB' hcB
  rw [htB] at h2
  simp only [forward_address_for] at h2
  refine ⟨reachable_keys_nodup s hreach, h1, h2, ?_, ?_,
    Nat.ne_of_lt (Nat.lt_succ_self _)⟩
  · rw [mapLookup_insert_ne _ _ _ _ (fun hcon => hkne hcon.symm)]
    exact mapLookup_insert_self _ _ _
  · exact mapLookup_insert_self _ _ _

/-- Witness for C5 at concrete inputs: from the initial (empty, reachable)
state, `addr0` sends `[1,0,0,0]` (ProtocolA) and then `[0x99,0,0,0]`
(ProtocolB): two sessions with identities 0 and 1 coexist under the two
composite keys. -/
theorem composite_key_two_sessions_witness :
    (([] : ConnectionMap).map Prod.fst).Nodup ∧
    listenerStep cEnvA initialState = Except.ok
      ({ connections := mapInsert [] (addr0, PacketType.Wireguard) 0,
         nextSession := 1 },
       [ListenerAction.createdSession (addr0, PacketType.Wireguard) 0
          WIREGUARD_SERVER_ADDR [1, 0, 0, 0]]) ∧
    listenerStep cEnvB
        { connections := mapInsert [] (addr0, PacketType.Wireguard) 0,
          nextSession := 1 } = Except.ok
      ({ connections := mapInsert (mapInsert [] (addr0, PacketType.Wireguard) 0)
            (addr0, PacketType.Quic) 1,
         nextSession := 2 },
       [ListenerAction.createdSession (addr0, PacketType.Quic) 1
          QUIC_SERVER_ADDR [0x99, 0, 0, 0]]) ∧
    mapLookup (mapInsert (mapInsert [] (addr0, PacketType.Wireguard) 0)
        (addr0, PacketType.Quic) 1) (addr0, PacketType.Wireguard) = some 0 ∧
    mapLookup (mapInsert (mapInsert [] (addr0, PacketType.Wireguard) 0)
        (addr0, PacketType.Quic) 1) (addr0, PacketType.Quic) = some 1 ∧
    (0 : Nat) ≠ 1 :=
  composite_key_two_sessions initialState Reachable.init cEnvA cEnvB addr0
    [1, 0, 0, 0] [0x99, 0, 0, 0] rfl (by decide) rfl (by decide) rfl rfl rfl rfl

/--
C7: for every session-terminating event — a socket error while relaying in
either direction (backend receive error, client send-back error, backend
forward error) or the idle timer firing — the relay loop stops, and the task
then removes its own key from the shared map exactly once.
-/
theorem session_stops_and_removes_once (addr : SocketAddr) (fwd : String)
    (key : SessionKey) (events : List SessionEvent) (conns : ConnectionMap)
    (h : events.any isTerminating = true) :
    (sessionLoop addr fwd events).1 = true ∧
      (sessionTask addr fwd key events conns).1 = mapRemove conns key ∧
      (sessionTask addr fwd key events conns).2.1 = 1 := by
  obtain ⟨h1, h2⟩ := sessionTask_terminating addr fwd key events conns h
  exact ⟨sessionLoop_exits addr fwd events h, h1, h2⟩

/-- Witness for C7: a backend receive error (code 3) stops the relay loop of
the `key0` session and yields exactly one removal of `key0`. -/
theorem session_stops_and_removes_once_witness :
    ([SessionEvent.backendRecv (Except.error 3) (Except.ok ())].any
        isTerminating = true) ∧
      ((sessionLoop addr0 QUIC_SERVER_ADDR
          [SessionEvent.backendRecv (Except.error 3) (Except.ok ())]).1 = true ∧
        (sessionTask addr0 QUIC_SERVER_ADDR key0
            [SessionEvent.backendRecv (Except.error 3) (Except.ok ())]
            demoMap).1 = mapRemove demoMap key0 ∧
        (sessionTask addr0 QUIC_SERVER_ADDR key0
            [SessionEvent.backendRecv (Except.error 3) (Except.ok ())]
            demoMap).2.1 = 1) :=
  ⟨rfl, session_stops_and_removes_once addr0 QUIC_SERVER_ADDR key0
    [SessionEvent.backendRecv (Except.error 3) (Except.ok ())] demoMap rfl⟩

/--
C8: a datagram that creates a session is sent to the backend address
determined solely by its protocol tag (`forward_address_for` is a function of
the tag alone, mapping `Wireguard` to the WireGuard backend and `Quic` to the
QUIC/HTTP3 backend), and a backend reply is relayed back byte-for-byte
unmodified to the originating client endpoint.
-/
theorem routed_by_tag_and_relayed_verbatim (env : StepEnv) (s : ListenerState)
    (addr : SocketAddr) (data reply : List Nat)
    (hrecv : env.recv = Except.ok (addr, data))
    (hmiss : mapLookup s.connections (addr, determine_packet_type data) = none)
    (hcreate : env.create = createOk) :
    listenerStep env s = Except.ok
      ({ connections := mapInsert s.connections (addr, determine_packet_type data)
            s.nextSession,
         nextSession := s.nextSession + 1 },
       [ListenerAction.createdSession (addr, determine_packet_type data)
          s.nextSession (forward_address_for (determine_packet_type data)) data]) ∧
    forward_address_for PacketType.Wireguard = WIREGUARD_SERVER_ADDR ∧
    forward_address_for PacketType.Quic = QUIC_SERVER_ADDR ∧
    sessionStep addr (forward_address_for (determine_packet_type data))
        (SessionEvent.backendRecv (Except.ok reply) (Except.ok ())) =
      (LoopControl.next, [SessionAction.sentToClient reply addr]) :=
  ⟨listenerStep_create env s addr data hrecv hmiss hcreate, rfl, rfl, rfl⟩

/-- Witness for C8: the ProtocolA datagram `[1,0,0,0]` from `addr0` creates a
session toward `WIREGUARD_SERVER_ADDR`, and a backend reply `[9,8,7]` is
relayed back verbatim to `addr0`. -/
theorem routed_by_tag_and_relayed_verbatim_witness :
    listenerStep cEnvA initialState = Except.ok
      ({ connections := mapInsert []
            (addr0, determine_packet_type [1, 0, 0, 0]) 0,
         nextSession := 1 },
       [ListenerAction.createdSession (addr0, determine_packet_type [1, 0, 0, 0]) 0
          (forward_address_for (determine_packet_type [1, 0, 0, 0])) [1, 0, 0, 0]]) ∧
    forward_address_for PacketType.Wireguard = WIREGUARD_SERVER_ADDR ∧
    forward_address_for PacketType.Quic = QUIC_SERVER_ADDR ∧
    sessionStep addr0 (forward_address_for (determine_packet_type [1, 0, 0, 0]))
        (SessionEvent.backendRecv (Except.ok [9, 8, 7]) (Except.ok ())) =
      (LoopControl.next, [SessionAction.sentToClient [9, 8, 7] addr0]) :=
  routed_by_tag_and_relayed_verbatim cEnvA initialState addr0 [1, 0, 0, 0]
    [9, 8, 7] rfl rfl rfl

/--
C10: a datagram for a key whose registry entry refers to an already-terminated
session (closed channel) is dropped: the iteration succeeds (the loop
continues), its only effect is removing the stale mapping — no forwarding
action, no new session, `nextSession` unchanged — and the key then resolves to
nothing, so only the next datagram for it triggers a fresh session.
-/
theorem stale_entry_drop_and_remove (env : StepEnv) (s : ListenerState)
    (addr : SocketAddr) (data : List Nat) (sid : SessionId)
    (hrecv : env.recv = Except.ok (addr, data))
    (hfound : mapLookup s.connections (addr, determine_packet_type data) = some sid)
    (hclosed : env.channelOpen = false) :
    listenerStep env s = Except.ok
      ({ s with connections := mapRemove s.connections (addr, determine_packet_type data) },
       [ListenerAction.droppedStale (addr, determine_packet_type data)]) ∧
      mapLookup (mapRemove s.connections (addr, determine_packet_type data))
        (addr, determine_packet_type data) = none :=
  ⟨listenerStep_stale env s addr data sid hrecv hfound hclosed,
    mapLookup_remove_self _ _⟩

/-- Witness for C10: a ProtocolA datagram from `addr0` arriving while the
registry maps `key0` to the dead session 5 is dropped, the stale entry is
removed, and the key no longer resolves. -/
theorem stale_entry_drop_and_remove_witness :
    cEnvStale.channelOpen = false ∧
      (listenerStep cEnvStale staleState = Except.ok
        ({ staleState with
             connections := mapRemove staleState.connections
                              (addr0, determine_packet_type [1, 0, 0, 0]) },
         [ListenerAction.droppedStale (addr0, determine_packet_type [1, 0, 0, 0])]) ∧
        mapLookup (mapRemove staleState.connections
            (addr0, determine_packet_type [1, 0, 0, 0]))
          (addr0, determine_packet_type [1, 0, 0, 0]) = none) :=
  ⟨rfl, stale_entry_drop_and_remove cEnvStale staleState addr0 [1, 0, 0, 0] 5
    rfl (by decide) rfl⟩

end WgQuic
